import Mathlib

/-!
Shallow embedding of the Advanced-documentation-browser client
(React/TypeScript sources under src/) together with theorems settling the
frozen claims about it.

Conventions of the embedding:
* JavaScript strings are Lean `String`; a JS value that may be `undefined`
  or `null` is an `Option`; JS string falsiness (`""` is falsy) is made
  explicit at each use site.
* `String.prototype.trim` is modelled by `jsTrim` (character-wise whitespace
  stripping on both ends).
* Stateful React handlers become pure functions from the relevant state to
  the new state (plus reported errors or flags), translated branch by branch
  from the source.
* Fallible async code returns `Except String α`; `Promise.all` over a list
  of requests is a left-to-right traversal that propagates the first error.
-/

/-- JS whitespace test used by the `jsTrim` model of `String.prototype.trim`. -/
def jsWsChar (c : Char) : Bool :=
  c = ' ' || c = '\t' || c = '\n' || c = '\r' || c = '\x0b' || c = '\x0c'

/-- Model of JS `String.prototype.trim`: drop whitespace at both ends. -/
def jsTrim (s : String) : String :=
  String.mk (((s.toList.dropWhile jsWsChar).reverse.dropWhile jsWsChar).reverse)

/-! ## Data model (src/unnamed/part_000, the shared `types` module) -/

/-- `MessageSender` enum from the types module. -/
inductive MessageSender where
  | user
  | model
  | system
deriving DecidableEq

/-- `UrlContextMetadataItem` from the types module. -/
structure UrlContextMetadataItem where
  retrievedUrl : String
  urlRetrievalStatus : String
deriving DecidableEq

/-- `ChatMessage` from the types module. The JS `Date` timestamp is modelled
as a `Nat` (milliseconds, the value of `Date.now()`); the optional
`isLoading` flag is a `Bool` defaulting to `false` and the optional
`urlContext` list is an `Option`. -/
structure ChatMessage where
  id : String
  text : String
  sender : MessageSender
  timestamp : Nat
  loading : Bool
  urlContext : Option (List UrlContextMetadataItem)
deriving DecidableEq

/-- `URLGroup` from the types module. -/
structure URLGroup where
  id : String
  name : String
  urls : List String
deriving DecidableEq

/-- `FileContext` from the types module. -/
structure FileContext where
  name : String
  content : String
deriving DecidableEq

/-- `Chapter` from the types module. -/
structure Chapter where
  title : String
  content : String
deriving DecidableEq

/-- `Book` from the types module. -/
structure Book where
  title : String
  chapters : List Chapter
deriving DecidableEq

/-- The `Mode` union type of src/App.tsx. -/
inductive Mode where
  | chat
  | image
  | book
deriving DecidableEq

/-! ## Knowledge-base operations (src/App.tsx and
src/components/KnowledgeBaseManager.tsx) -/

/-- `MAX_URLS` constant of src/App.tsx. -/
def MAX_URLS : Nat := 20

/-- `currentUrlsForChat` of src/App.tsx: the urls of the group whose id is
the active id, or `[]` when no group matches
(`activeGroup ? activeGroup.urls : []`). -/
def activeUrls (groups : List URLGroup) (activeId : String) : List String :=
  match groups.find? (fun g => g.id = activeId) with
  | some g => g.urls
  | none => []

/-- `handleAddUrl` of src/App.tsx: append the url to the active group and
re-truncate to `MAX_URLS` entries (`[...group.urls, url].slice(0, MAX_URLS)`). -/
def appHandleAddUrl (groups : List URLGroup) (activeId url : String) : List URLGroup :=
  groups.map fun g =>
    if g.id = activeId then { g with urls := (g.urls ++ [url]).take MAX_URLS } else g

/-- The limit error message of src/components/KnowledgeBaseManager.tsx with
`maxUrls = MAX_URLS` interpolated, as src/App.tsx passes it. -/
def limitErrorMsg : String :=
  "You can add a maximum of " ++ toString MAX_URLS ++ " URLs to the current group."

/-- The duplicate error message of src/components/KnowledgeBaseManager.tsx. -/
def duplicateErrorMsg : String :=
  "This URL has already been added to the current group."

/-- `handleAddUrl` of src/components/KnowledgeBaseManager.tsx composed with
the `onAddUrl` callback (`handleAddUrl` of src/App.tsx). The component
validates the raw input against the active group urls in order: blank
input, malformed URL (the `new URL` browser constructor is abstracted as
the `isValidUrl` parameter), group at capacity, duplicate; only then does it
mutate. Returns the new group list and the reported error (`none` models
`setError(null)`). -/
def kbmHandleAddUrl (isValidUrl : String → Bool) (groups : List URLGroup)
    (activeId input : String) : List URLGroup × Option String :=
  if jsTrim input = "" then
    (groups, some "URL cannot be empty.")
  else if isValidUrl input = false then
    (groups, some "Invalid URL format. Please include http:// or https://")
  else if MAX_URLS ≤ (activeUrls groups activeId).length then
    (groups, some limitErrorMsg)
  else if input ∈ activeUrls groups activeId then
    (groups, some duplicateErrorMsg)
  else
    (appHandleAddUrl groups activeId input, none)

/-- A sequence of add-URL operations (active id and raw input per step),
threading the group list through `kbmHandleAddUrl`. -/
def applyAddSequence (isValidUrl : String → Bool) (ops : List (String × String))
    (groups : List URLGroup) : List URLGroup :=
  ops.foldl (fun gs op => (kbmHandleAddUrl isValidUrl gs op.1 op.2).1) groups

/-- `handleRemoveGroup` of src/App.tsx. The `window.confirm` dialog is the
`confirm` parameter. Returns the new group list and the new active id. -/
def handleRemoveGroup (confirm : Bool) (groups : List URLGroup)
    (activeId groupId : String) : List URLGroup × String :=
  if groups.length ≤ 1 then (groups, activeId)
  else if confirm then
    let remaining := groups.filter fun g => g.id != groupId
    let newActive :=
      if activeId = groupId then
        match remaining.head? with
        | some g => g.id
        | none => ""
      else activeId
    (remaining, newActive)
  else (groups, activeId)

/-- `handleSetTextContext` of src/App.tsx: blank (whitespace-only) input
clears the file context, otherwise the context is replaced by the trimmed
pasted text. The previous context is ignored by the source handler, which
overwrites it unconditionally. -/
def handleSetTextContext (content : String) (_prev : Option FileContext) :
    Option FileContext :=
  if jsTrim content = "" then none
  else some { name := "Pasted Content", content := jsTrim content }

/-! ## Welcome-message effect and chat sending (src/App.tsx) -/

/-- The display name used by the welcome-message effect of src/App.tsx:
`currentActiveGroup?.name || 'Untitled'` (a missing group or a falsy, i.e.
empty, name both fall back to the default label). -/
def welcomeDisplayName (groups : List URLGroup) (activeId : String) : String :=
  match groups.find? (fun g => g.id = activeId) with
  | some g => if g.name = "" then "Untitled" else g.name
  | none => "Untitled"

/-- The welcome-message text assembled by the effect of src/App.tsx
(string concatenation is associated to the right so that the display name
is a visible factor of the text). -/
def welcomeText (groups : List URLGroup) (activeId : String)
    (fileContext : Option FileContext) : String :=
  let hasContent :=
    (match groups.find? (fun g => g.id = activeId) with
     | some g => !g.urls.isEmpty
     | none => false) || fileContext.isSome
  let suffix :=
    if hasContent then " Ask me anything, or try a suggestion."
    else " Add documentation URLs or a file to start asking questions."
  "Welcome to Chat Mode! You\x27re viewing the \"" ++
    (welcomeDisplayName groups activeId ++ ("\" knowledge base." ++ suffix))

/-- The welcome-message `useEffect` of src/App.tsx: whenever it fires with
`mode === 'chat'` it replaces the whole transcript with a single system
message; in any other mode it returns early and the transcript is kept. -/
def welcomeEffect (mode : Mode) (groups : List URLGroup) (activeId : String)
    (fileContext : Option FileContext) (now : Nat) (messages : List ChatMessage) :
    List ChatMessage :=
  if mode = Mode.chat then
    [{ id := "system-welcome-" ++ activeId ++ "-" ++ toString now,
       text := welcomeText groups activeId fileContext,
       sender := MessageSender.system,
       timestamp := now,
       loading := false,
       urlContext := none }]
  else messages

/-- `GeminiResponse` of src/services/geminiService.ts. -/
structure GeminiResponse where
  text : String
  urlContextMetadata : Option (List UrlContextMetadataItem)
deriving DecidableEq

/-- The chat-relevant slice of the src/App.tsx component state read and
written by `handleSendMessage`. -/
structure ChatState where
  messages : List ChatMessage
  isLoading : Bool
  isFetchingSuggestions : Bool
  suggestions : List String
deriving DecidableEq

/-- `handleSendMessage` of src/App.tsx, from the guard through the settled
promise. The remote call is the `remote` parameter (its resolved response or
rejection message); the returned `Bool` records whether the remote call was
issued. The guard returns without touching any state; otherwise the handler
sets the loading flag, clears suggestions, appends the user message and the
model placeholder, and finally replaces the placeholder with the resolved
text (or a system-sender error message) and clears the loading flag. -/
def handleSendMessage (st : ChatState) (query : String) (now : Nat)
    (remote : Except String GeminiResponse) : ChatState × Bool :=
  if jsTrim query = "" ∨ st.isLoading = true ∨ st.isFetchingSuggestions = true then
    (st, false)
  else
    let userMsg : ChatMessage :=
      { id := "user-" ++ toString now, text := query, sender := MessageSender.user,
        timestamp := now, loading := false, urlContext := none }
    let placeholder : ChatMessage :=
      { id := "model-" ++ toString now, text := "Thinking...",
        sender := MessageSender.model, timestamp := now, loading := true,
        urlContext := none }
    let afterAppend := st.messages ++ [userMsg, placeholder]
    let finalMessages :=
      match remote with
      | Except.ok resp =>
          afterAppend.map fun m =>
            if m.id = placeholder.id then
              { placeholder with
                  text := if resp.text = "" then "I received an empty response." else resp.text,
                  loading := false,
                  urlContext := resp.urlContextMetadata }
            else m
      | Except.error e =>
          afterAppend.map fun m =>
            if m.id = placeholder.id then
              { placeholder with
                  text := "Error: " ++ e,
                  sender := MessageSender.system,
                  loading := false }
            else m
    ({ st with messages := finalMessages, isLoading := false, suggestions := [] }, true)

/-! ## Contextual chat completion request (src/services/geminiService.ts,
`generateContentWithUrlContext`) -/

/-- The two request augmentation tools of src/services/geminiService.ts. -/
inductive Tool where
  | googleSearch
  | urlContext
deriving DecidableEq

/-- The request shape assembled by `generateContentWithUrlContext` before the
remote call: the composite prompt, the tool list, and whether a zero
thinking budget was requested. -/
structure ChatRequest where
  promptText : String
  tools : List Tool
  thinkingBudgetZero : Bool
deriving DecidableEq

/-- Prompt and config assembly of `generateContentWithUrlContext`
(src/services/geminiService.ts lines 36-62): optional custom system prompt
prefix, optional file-context block, optional URL list, the
web-search/url-context tool choice, and the thinking budget. -/
def buildChatRequest (prompt : String) (urls : List String)
    (fileContext : Option FileContext) (useWebSearch useThinking : Bool)
    (customPrompt : String) : ChatRequest :=
  let p0 :=
    if jsTrim customPrompt = "" then prompt
    else customPrompt ++ "\n\nUser Question: " ++ prompt
  let p1 :=
    match fileContext with
    | some fc =>
        p0 ++ "\n\nUse the following file context from \"" ++ fc.name ++
          "\":\n---\n" ++ fc.content ++ "\n---"
    | none => p0
  let p2 :=
    if urls.isEmpty then p1
    else p1 ++ "\n\nRelevant URLs for context:\n" ++ String.intercalate "\n" urls
  { promptText := p2,
    tools := if useWebSearch then [Tool.googleSearch] else [Tool.urlContext],
    thinkingBudgetZero := !useThinking }

/-! ## Initial suggestions (src/services/geminiService.ts,
`getInitialSuggestions`) -/

/-- Bool substring test modelling JS `String.prototype.includes`. -/
def containsSub (s pat : String) : Bool :=
  decide (List.IsInfix pat.toList s.toList)

/-- The canned suggestion of the `getInitialSuggestions` fallback. -/
def cannedSuggestion : String :=
  "Add some URLs or a file to get topic suggestions."

/-- Model of `JSON.stringify({ suggestions: xs })` for a list of plain
strings (none of the strings serialized by the source contain characters
that stringify would escape). -/
def stringifySuggestionsPayload (xs : List String) : String :=
  "\x7b\"suggestions\":[" ++
    String.intercalate "," (xs.map fun s => "\"" ++ s ++ "\"") ++ "]\x7d"

/-- The suggestion prompt assembled by `getInitialSuggestions` when at least
one context source is present. -/
def suggestionsPrompt (urls : List String) (fileContent : Option String) : String :=
  let ctx0 :=
    match fileContent with
    | some c =>
        if c = "" then ""
        else "Based on the content of the following text file:\n---\n" ++ c ++ "\n---\n\n"
    | none => ""
  let ctx1 :=
    if urls.isEmpty then ctx0
    else ctx0 ++ "And based on the content of the following documentation URLs:\n" ++
      String.intercalate "\n" urls ++ "\n\n"
  ctx1 ++ "Provide 3-4 concise and actionable questions a developer might ask to explore this content. These questions should be suitable as quick-start prompts. Return ONLY a JSON object with a key \"suggestions\" containing an array of these question strings. For example: \x7b\"suggestions\": [\"What are the rate limits?\", \"How do I get an API key?\", \"Explain model X.\"]\x7d"

/-- JS falsiness of the `fileContent: string | null` parameter
(`!fileContent` is true for `null` and for the empty string). -/
def jsFalsyContent (fileContent : Option String) : Bool :=
  match fileContent with
  | none => true
  | some c => c == ""

/-- `getInitialSuggestions` of src/services/geminiService.ts. The remote
model call is the `remote` parameter (prompt text to resolved response text
or rejection message). Returns the operation result and whether the remote
call was issued. With both context sources absent it short-circuits to the
canned fallback payload before any client is created; otherwise it issues
the request and maps failures onto the invalid-key message or a generic
prefixed message. -/
def getInitialSuggestions (remote : String → Except String String)
    (urls : List String) (fileContent : Option String) :
    Except String GeminiResponse × Bool :=
  if urls.isEmpty && jsFalsyContent fileContent then
    (Except.ok { text := stringifySuggestionsPayload [cannedSuggestion],
                 urlContextMetadata := none }, false)
  else
    match remote (suggestionsPrompt urls fileContent) with
    | Except.ok t => (Except.ok { text := t, urlContextMetadata := none }, true)
    | Except.error msg =>
        if containsSub msg "API key not valid" then
          (Except.error "Invalid API Key. Please check the key you provided.", true)
        else
          (Except.error ("Failed to get initial suggestions from AI: " ++ msg), true)

/-! ## Image editing (src/services/geminiService.ts, `editImage`) -/

/-- `inlineData` of a response part: base64 payload (the empty string models
an absent `data` field, matching the `|| ''` in the source) and declared
mime type (the empty string models an absent `mimeType`). -/
structure InlineData where
  data : String
  mimeType : String
deriving DecidableEq

/-- A response content part: at most one of inline image data and text. -/
structure RespPart where
  inlineData : Option InlineData
  text : Option String
deriving DecidableEq

/-- The result object of `editImage`. -/
structure EditResult where
  base64Image : String
  text : String
  mimeType : String
deriving DecidableEq

/-- The inner no-image error message thrown by `editImage`. -/
def noImageMsg : String :=
  "The model did not return an image. It might have refused the request."

/-- The part-scanning loop of `editImage`: threads
(resultImage, resultText, resultMimeType) through the response parts. A part
with inline data overwrites the image bytes and (when declared) the mime
type; otherwise a part with truthy text is appended. -/
def scanParts : List RespPart → String × String × String → String × String × String
  | [], acc => acc
  | p :: ps, (img, txt, mt) =>
    match p.inlineData with
    | some d => scanParts ps (d.data, txt, if d.mimeType = "" then mt else d.mimeType)
    | none =>
      match p.text with
      | some t => scanParts ps (img, if t = "" then txt else txt ++ t, mt)
      | none => scanParts ps (img, txt, mt)

/-- `editImage` of src/services/geminiService.ts, given the response content
parts. When no image bytes were collected the inner throw is caught by the
surrounding catch and re-wrapped with the `Image editing failed: ` prefix,
so the surfaced rejection carries the wrapped message and no result object
exists. -/
def editImage (parts : List RespPart) : Except String EditResult :=
  let acc := scanParts parts ("", "", "image/png")
  if acc.1 = "" then Except.error ("Image editing failed: " ++ noImageMsg)
  else
    Except.ok { base64Image := acc.1,
                text := if acc.2.1 = "" then "Image edited successfully." else acc.2.1,
                mimeType := acc.2.2 }

/-! ## Book generation (src/services/geminiService.ts, `generateBook`) -/

/-- JSON whitespace accepted between tokens by `JSON.parse`. -/
def isJsonWs (c : Char) : Bool :=
  c = ' ' || c = '\t' || c = '\n' || c = '\r'

/-- JSON values, as produced by the model of `JSON.parse`. -/
inductive Json where
  | jnull
  | jbool (b : Bool)
  | jnum (n : Int)
  | jstr (s : String)
  | jarr (elems : List Json)
  | jobj (fields : List (String × Json))

/-- Decimal digit accumulation for the number branch of the parser. -/
def digitsToNat (ds : List Char) : Nat :=
  ds.foldl (fun n c => 10 * n + (c.toNat - 48)) 0

/-- The left-brace character (written by code point to keep string and
character literals brace-free). -/
def lbraceChar : Char := Char.ofNat 123

/-- The right-brace character. -/
def rbraceChar : Char := Char.ofNat 125

/-- String-body scanner of the `JSON.parse` model: consumes characters after
an opening quote up to the closing quote, decoding the single-character
escapes (the `\uXXXX` form does not occur in any text the program parses and
is decoded as the literal character following the backslash). Returns the
decoded characters and the rest of the input. -/
def parseJStringAux : List Char → Option (List Char × List Char)
  | [] => none
  | '"' :: rest => some ([], rest)
  | '\\' :: c :: rest =>
    let ec :=
      if c = 'n' then '\n'
      else if c = 't' then '\t'
      else if c = 'r' then '\r'
      else if c = 'b' then Char.ofNat 8
      else if c = 'f' then Char.ofNat 12
      else c
    (parseJStringAux rest).map fun p => (ec :: p.1, p.2)
  | c :: rest => (parseJStringAux rest).map fun p => (c :: p.1, p.2)

/-- Parser modes: a value, the remaining elements of an array (after the
opening bracket, given the elements already read), or the remaining fields
of an object. -/
inductive PMode where
  | value
  | arrayElems (acc : List Json)
  | objFields (acc : List (String × Json))

/-- Fuel-indexed recursive-descent model of `JSON.parse` (integers only in
the number branch; no nesting or numeric form beyond this subset occurs in
the payloads the program parses). -/
def parseJ : Nat → PMode → List Char → Option (Json × List Char)
  | 0, _, _ => none
  | fuel+1, PMode.value, cs =>
    match cs.dropWhile isJsonWs with
    | [] => none
    | c :: rest =>
      if c = '"' then
        match parseJStringAux rest with
        | some p => some (Json.jstr (String.mk p.1), p.2)
        | none => none
      else if c = '[' then
        match rest.dropWhile isJsonWs with
        | ']' :: rem => some (Json.jarr [], rem)
        | _ => parseJ fuel (PMode.arrayElems []) rest
      else if c = lbraceChar then
        match rest.dropWhile isJsonWs with
        | c2 :: rem =>
          if c2 = rbraceChar then some (Json.jobj [], rem)
          else parseJ fuel (PMode.objFields []) rest
        | [] => none
      else if c = 't' then
        match rest with
        | 'r' :: 'u' :: 'e' :: rem => some (Json.jbool true, rem)
        | _ => none
      else if c = 'f' then
        match rest with
        | 'a' :: 'l' :: 's' :: 'e' :: rem => some (Json.jbool false, rem)
        | _ => none
      else if c = 'n' then
        match rest with
        | 'u' :: 'l' :: 'l' :: rem => some (Json.jnull, rem)
        | _ => none
      else if c = '-' then
        match rest.takeWhile Char.isDigit with
        | [] => none
        | ds => some (Json.jnum (-(Int.ofNat (digitsToNat ds))), rest.dropWhile Char.isDigit)
      else if c.isDigit then
        some (Json.jnum (Int.ofNat (digitsToNat ((c :: rest).takeWhile Char.isDigit))),
          (c :: rest).dropWhile Char.isDigit)
      else none
  | fuel+1, PMode.arrayElems acc, cs =>
    match parseJ fuel PMode.value cs with
    | some (v, rem) =>
      match rem.dropWhile isJsonWs with
      | ',' :: rem2 => parseJ fuel (PMode.arrayElems (acc ++ [v])) rem2
      | ']' :: rem2 => some (Json.jarr (acc ++ [v]), rem2)
      | _ => none
    | none => none
  | fuel+1, PMode.objFields acc, cs =>
    match cs.dropWhile isJsonWs with
    | c :: rest =>
      if c = '"' then
        match parseJStringAux rest with
        | some kp =>
          match kp.2.dropWhile isJsonWs with
          | ':' :: rem2 =>
            match parseJ fuel PMode.value rem2 with
            | some (v, rem3) =>
              match rem3.dropWhile isJsonWs with
              | ',' :: rem4 =>
                parseJ fuel (PMode.objFields (acc ++ [(String.mk kp.1, v)])) rem4
              | c2 :: rem4 =>
                if c2 = rbraceChar then
                  some (Json.jobj (acc ++ [(String.mk kp.1, v)]), rem4)
                else none
              | [] => none
            | none => none
          | _ => none
        | none => none
      else none
    | [] => none

/-- Model of `JSON.parse`: parse one value and require only whitespace
after it. -/
def jsonParse (s : String) : Option Json :=
  match parseJ (2 * s.length + 2) PMode.value s.toList with
  | some (v, rem) => if rem.dropWhile isJsonWs = [] then some v else none
  | none => none

/-- Field lookup on a parsed JSON object. -/
def Json.getField (j : Json) (key : String) : Option Json :=
  match j with
  | Json.jobj fields => fields.lookup key
  | _ => none

/-- Extract a list of strings from parsed JSON array elements; fails on any
non-string element. -/
def jstrList : List Json → Option (List String)
  | [] => some []
  | Json.jstr s :: rest => (jstrList rest).map fun ts => s :: ts
  | _ => none

/-- Word-character test for the language tag of the fence pattern
(`\w` of the source regex). -/
def isWordChar (c : Char) : Bool :=
  c.isAlphanum || c = '_'

/-- The characters of a triple-backtick fence. -/
def fenceChars : List Char := "```".toList

/-- The fence-stripping step of `generateBook`
(src/services/geminiService.ts lines 266-270), rendering the regex
match of the anchored pattern: a leading fence with an optional
language tag and optional whitespace, a lazily-matched body, trailing
whitespace and a closing fence. The body (capture group 2) must be truthy
(non-empty) for the strip to apply, and is trimmed afterwards as in the
source. -/
def stripOutlineFence (s : String) : String :=
  let cs := s.toList
  if cs.take 3 = fenceChars ∧ 6 ≤ cs.length ∧ cs.drop (cs.length - 3) = fenceChars then
    let inner := (cs.drop 3).take (cs.length - 6)
    let g2 := (inner.dropWhile isWordChar).dropWhile jsWsChar
    if g2 = [] then s else jsTrim (String.mk g2)
  else s

/-- The fatal outline-parse error of `generateBook`. -/
def outlineParseErrorMsg : String := "Could not generate a valid book outline."

/-- A parsed value outside the expected outline shape crashes the source
after the (already succeeded) `JSON.parse`, when the destructured
`chapterTitles` is mapped over: an uncaught TypeError rejecting the
`generateBook` promise. The response schema sent with the outline request
constrains `title` to a string and `chapters` to an array of strings, so
the whole off-shape family is modelled by this one distinct error. -/
def outlineShapeErrorMsg : String := "TypeError: chapterTitles.map is not a function"

/-- The parsed book outline. -/
structure BookOutline where
  title : String
  chapters : List String
deriving DecidableEq

/-- The outline-parsing phase of `generateBook`: trim the response text,
strip an optional code fence, `JSON.parse` it, and take the `title` and
`chapters` fields. -/
def parseOutline (raw : String) : Except String BookOutline :=
  match jsonParse (stripOutlineFence (jsTrim raw)) with
  | none => Except.error outlineParseErrorMsg
  | some j =>
    match j.getField "title", j.getField "chapters" with
    | some (Json.jstr t), some (Json.jarr elems) =>
      match jstrList elems with
      | some titles => Except.ok { title := t, chapters := titles }
      | none => Except.error outlineShapeErrorMsg
    | _, _ => Except.error outlineShapeErrorMsg

/-- A settled chapter-content response: `text` is the resolved
`response.text`, with the empty string modelling an absent text. -/
structure ChapterResponse where
  text : String
deriving DecidableEq

/-- The fixed placeholder substituted for a chapter whose resolved response
carries no text (`response.text || "..."`). -/
def chapterPlaceholder : String := "Content generation for this chapter failed."

/-- The content stored for a chapter from its resolved response. -/
def chapterContent (r : ChapterResponse) : String :=
  if r.text = "" then chapterPlaceholder else r.text

/-- The per-chapter fan-out of `generateBook`: one content request per
outline chapter, joined by `Promise.all`. A rejected request rejects the
whole join (the model propagates the first error in list order; the source
rejects with whichever rejection settles first, and the claims at issue
involve a single failing request, for which the two coincide). -/
def buildChapters (fetch : String → Except String ChapterResponse) :
    List String → Except String (List Chapter)
  | [] => Except.ok []
  | t :: ts =>
    match fetch t with
    | Except.error e => Except.error e
    | Except.ok r =>
      match buildChapters fetch ts with
      | Except.error e => Except.error e
      | Except.ok chs => Except.ok ({ title := t, content := chapterContent r } :: chs)

/-- `generateBook` of src/services/geminiService.ts, given the outline
response text and the per-chapter content requests. -/
def generateBook (outlineText : String)
    (fetch : String → Except String ChapterResponse) : Except String Book :=
  match parseOutline outlineText with
  | Except.error e => Except.error e
  | Except.ok o =>
    match buildChapters fetch o.chapters with
    | Except.error e => Except.error e
    | Except.ok chs => Except.ok { title := o.title, chapters := chs }

/-- The outline text of the claim C1 scenario, unfenced. -/
def rawOutlineC1 : String := "\x7b\"title\":\"T\",\"chapters\":[\"A\",\"B\"]\x7d"

/-- The outline text of the claim C1 scenario, wrapped in a triple-backtick
fence with a `json` language tag. -/
def fencedOutlineC1 : String :=
  "```json\n\x7b\"title\":\"T\",\"chapters\":[\"A\",\"B\"]\x7d\n```"

/-- The claim C1 counterexample run: the content request for chapter B
rejects, the one for chapter A resolves. -/
def failingFetchC1 (t : String) : Except String ChapterResponse :=
  if t = "B" then Except.error "network failure"
  else Except.ok { text := "Alpha content" }

/-! ## Helper lemmas -/

/-- One add-URL operation keeps every group at or below the URL cap. -/
theorem kbmHandleAddUrl_preserves_bound (isValidUrl : String → Bool)
    (groups : List URLGroup) (activeId input : String)
    (h : ∀ g ∈ groups, g.urls.length ≤ MAX_URLS) :
    ∀ g ∈ (kbmHandleAddUrl isValidUrl groups activeId input).1, g.urls.length ≤ MAX_URLS := by
  intro g hg
  unfold kbmHandleAddUrl at hg
  split_ifs at hg
  · exact h g hg
  · exact h g hg
  · exact h g hg
  · exact h g hg
  · replace hg : g ∈ appHandleAddUrl groups activeId input := hg
    simp only [appHandleAddUrl, List.mem_map] at hg
    obtain ⟨g0, hg0, rfl⟩ := hg
    split
    · simp only [List.length_take]
      exact Nat.min_le_left MAX_URLS _
    · exact h g0 hg0

/-- A whole sequence of add-URL operations keeps every group at or below the
URL cap. -/
theorem applyAddSequence_preserves_bound (isValidUrl : String → Bool)
    (ops : List (String × String)) :
    ∀ groups : List URLGroup, (∀ g ∈ groups, g.urls.length ≤ MAX_URLS) →
      ∀ g ∈ applyAddSequence isValidUrl ops groups, g.urls.length ≤ MAX_URLS := by
  induction ops with
  | nil => intro groups h; simpa [applyAddSequence] using h
  | cons op rest ih =>
    intro groups h
    simp only [applyAddSequence, List.foldl_cons]
    exact ih _ (kbmHandleAddUrl_preserves_bound isValidUrl groups op.1 op.2 h)

/-- The active urls are the urls of the group that `find?` locates. -/
theorem activeUrls_eq_of_find? (groups : List URLGroup) (activeId : String)
    (g0 : URLGroup) (hf : groups.find? (fun g => g.id = activeId) = some g0) :
    activeUrls groups activeId = g0.urls := by
  unfold activeUrls
  rw [hf]

/-- Appending through the App-level handler extends the active group urls by
the new url, provided the group is below the cap (so the re-truncation is
the identity). -/
theorem activeUrls_appHandleAddUrl (groups : List URLGroup) (activeId url : String)
    (g0 : URLGroup) (hf : groups.find? (fun g => g.id = activeId) = some g0)
    (hlen : g0.urls.length < MAX_URLS) :
    activeUrls (appHandleAddUrl groups activeId url) activeId = g0.urls ++ [url] := by
  induction groups with
  | nil => simp [List.find?] at hf
  | cons g gs ih =>
    by_cases hg : g.id = activeId
    · rw [List.find?_cons_of_pos _ (by simp [hg])] at hf
      injection hf with hf
      subst hf
      unfold appHandleAddUrl activeUrls
      simp only [List.map_cons, if_pos hg]
      rw [List.find?_cons_of_pos _ (by simp [hg])]
      have hle : (g.urls ++ [url]).length ≤ MAX_URLS := by
        simp only [List.length_append, List.length_singleton]
        omega
      simpa using List.take_of_length_le hle
    · rw [List.find?_cons_of_neg _ (by simp [hg])] at hf
      have htail := ih hf
      unfold appHandleAddUrl activeUrls at htail ⊢
      simp only [List.map_cons, if_neg hg]
      rw [List.find?_cons_of_neg _ (by simp [hg])]
      exact htail

/-- A chapter fan-out in which every request resolves joins to the full
chapter list in outline order. -/
theorem buildChapters_all_resolved (fetch : String → Except String ChapterResponse)
    (resp : String → ChapterResponse) :
    ∀ titles : List String, (∀ t ∈ titles, fetch t = Except.ok (resp t)) →
      buildChapters fetch titles =
        Except.ok (titles.map fun t => { title := t, content := chapterContent (resp t) }) := by
  intro titles
  induction titles with
  | nil => intro _; rfl
  | cons t ts ih =>
    intro h
    have ht := h t (List.mem_cons_self t ts)
    have hts := ih fun u hu => h u (List.mem_cons_of_mem t hu)
    unfold buildChapters
    rw [ht, hts]
    rfl

/-- The part scan of `editImage` leaves the image accumulator untouched when
no part carries inline data. -/
theorem scanParts_fst_of_no_inline (parts : List RespPart) (img : String)
    (h : ∀ p ∈ parts, p.inlineData = none) :
    ∀ txt mt : String, (scanParts parts (img, txt, mt)).1 = img := by
  induction parts with
  | nil => intro txt mt; rfl
  | cons p ps ih =>
    intro txt mt
    have hp := h p (List.mem_cons_self p ps)
    have hps := ih fun q hq => h q (List.mem_cons_of_mem p hq)
    unfold scanParts
    rw [hp]
    cases hpt : p.text with
    | some t => exact hps _ _
    | none => exact hps _ _

/-! ## Claim theorems -/

/-- Claim C1 counterexample: the claim asserts that when exactly one
chapter content request fails the resulting book still contains one chapter
per outline entry with the placeholder for the failing one. On the code a
rejected chapter request rejects the `Promise.all` join and hence the whole
`generateBook` call: with the outline (title T, chapters A and B) and the
request for B rejecting while A resolves, no book is produced at all. -/
theorem claim_C1_counterexample :
    generateBook rawOutlineC1 failingFetchC1 = Except.error "network failure" := rfl

/-- Claim C1 as amended: the outline parser yields title T and chapters A, B
for the given JSON text both bare and fenced; and for every outline whose
chapter requests all resolve, the book has one chapter per outline entry in
outline order, where a chapter whose resolved response carries no text gets
the fixed placeholder and every other chapter carries its returned text.
A chapter request that rejects outright aborts the whole book generation
(see the counterexample). -/
theorem claim_C1 (outlineText : String) (o : BookOutline)
    (fetch : String → Except String ChapterResponse) (resp : String → ChapterResponse)
    (hparse : parseOutline outlineText = Except.ok o)
    (hall : ∀ t ∈ o.chapters, fetch t = Except.ok (resp t)) :
    parseOutline rawOutlineC1 = Except.ok { title := "T", chapters := ["A", "B"] } ∧
    parseOutline fencedOutlineC1 = Except.ok { title := "T", chapters := ["A", "B"] } ∧
    generateBook outlineText fetch =
      Except.ok { title := o.title,
                  chapters := o.chapters.map fun t =>
                    { title := t, content := chapterContent (resp t) } } ∧
    (∀ r : ChapterResponse, r.text = "" → chapterContent r = chapterPlaceholder) ∧
    (∀ r : ChapterResponse, r.text ≠ "" → chapterContent r = r.text) := by
  refine ⟨rfl, rfl, ?_, ?_, ?_⟩
  · simp only [generateBook, hparse, buildChapters_all_resolved fetch resp o.chapters hall]
  · intro r hr
    unfold chapterContent
    rw [if_pos hr]
  · intro r hr
    unfold chapterContent
    rw [if_neg hr]

/-- Claim C1 witness: a concrete run in which chapter A resolves with text
and chapter B resolves with empty text, so chapter B alone degrades to the
placeholder. -/
theorem claim_C1_witness :
    generateBook rawOutlineC1
        (fun t => Except.ok { text := if t = "A" then "Alpha" else "" }) =
      Except.ok { title := "T",
                  chapters := [{ title := "A", content := "Alpha" },
                               { title := "B", content := chapterPlaceholder }] } :=
  (claim_C1 rawOutlineC1 { title := "T", chapters := ["A", "B"] }
      (fun t => Except.ok { text := if t = "A" then "Alpha" else "" })
      (fun t => { text := if t = "A" then "Alpha" else "" })
      rfl (fun _ _ => rfl)).2.2.1

/-- Claim C2: the URL cap invariant. Any sequence of add-URL operations
keeps every group at or below 20 urls, and an add attempted with a
well-formed, non-blank url while the active group already holds 20 urls
leaves the group list unchanged and reports the limit error (a blank or
malformed input is rejected earlier by its own validation error, also
without mutating state). -/
theorem claim_C2 (isValidUrl : String → Bool) (ops : List (String × String))
    (groups : List URLGroup) (activeId input : String) :
    ((∀ g ∈ groups, g.urls.length ≤ MAX_URLS) →
      ∀ g ∈ applyAddSequence isValidUrl ops groups, g.urls.length ≤ MAX_URLS) ∧
    (jsTrim input ≠ "" → isValidUrl input = true →
      (activeUrls groups activeId).length = MAX_URLS →
      kbmHandleAddUrl isValidUrl groups activeId input = (groups, some limitErrorMsg)) := by
  constructor
  · exact applyAddSequence_preserves_bound isValidUrl ops groups
  · intro h1 h2 h3
    unfold kbmHandleAddUrl
    rw [if_neg h1, if_neg (by simp [h2]), if_pos (le_of_eq h3.symm)]

/-- Claim C2 witness: adding a valid url to a group already holding 20 urls
is rejected with the limit error and the state is unchanged. -/
theorem claim_C2_witness :
    kbmHandleAddUrl (fun _ => true)
        [{ id := "g1", name := "KB", urls := List.replicate 20 "u" }] "g1" "http://example.com"
      = ([{ id := "g1", name := "KB", urls := List.replicate 20 "u" }], some limitErrorMsg) :=
  (claim_C2 (fun _ => true) [] [{ id := "g1", name := "KB", urls := List.replicate 20 "u" }]
      "g1" "http://example.com").2 (by decide) rfl (by decide)

/-- Claim C3: adding a url already present in the active group (below the
cap, with valid non-blank input) is a no-op with the duplicate error; adding
the same url with a different group active that does not contain it succeeds
and appends the url to that group. -/
theorem claim_C3 (isValidUrl : String → Bool) (groups : List URLGroup)
    (activeId input : String) (g0 : URLGroup) :
    (input ∈ activeUrls groups activeId → jsTrim input ≠ "" → isValidUrl input = true →
      (activeUrls groups activeId).length < MAX_URLS →
      kbmHandleAddUrl isValidUrl groups activeId input = (groups, some duplicateErrorMsg)) ∧
    (groups.find? (fun g => g.id = activeId) = some g0 → input ∉ g0.urls →
      jsTrim input ≠ "" → isValidUrl input = true → g0.urls.length < MAX_URLS →
      (kbmHandleAddUrl isValidUrl groups activeId input).2 = none ∧
      activeUrls (kbmHandleAddUrl isValidUrl groups activeId input).1 activeId =
        g0.urls ++ [input]) := by
  constructor
  · intro hmem h1 h2 h4
    unfold kbmHandleAddUrl
    rw [if_neg h1, if_neg (by simp [h2]), if_neg (by omega), if_pos hmem]
  · intro hf hnot h1 h2 hlen
    have hact := activeUrls_eq_of_find? groups activeId g0 hf
    have hres : kbmHandleAddUrl isValidUrl groups activeId input =
        (appHandleAddUrl groups activeId input, none) := by
      unfold kbmHandleAddUrl
      rw [if_neg h1, if_neg (by simp [h2]), if_neg (by rw [hact]; omega),
        if_neg (by rw [hact]; exact hnot)]
    rw [hres]
    exact ⟨rfl, activeUrls_appHandleAddUrl groups activeId input g0 hf hlen⟩

/-- Claim C3 witness: the url already stored in group g1 is added while
group g2 is active; the operation succeeds and appends it to g2. -/
theorem claim_C3_witness :
    (kbmHandleAddUrl (fun _ => true)
        [{ id := "g1", name := "KB", urls := ["http://a"] },
         { id := "g2", name := "KB2", urls := [] }] "g2" "http://a").2 = none ∧
    activeUrls (kbmHandleAddUrl (fun _ => true)
        [{ id := "g1", name := "KB", urls := ["http://a"] },
         { id := "g2", name := "KB2", urls := [] }] "g2" "http://a").1 "g2" =
      [] ++ ["http://a"] :=
  (claim_C3 (fun _ => true)
      [{ id := "g1", name := "KB", urls := ["http://a"] },
       { id := "g2", name := "KB2", urls := [] }] "g2" "http://a"
      { id := "g2", name := "KB2", urls := [] }).2 rfl (by decide) (by decide) rfl (by decide)

/-- Claim C4: removing a group is a no-op when exactly one group exists;
with more than one group, a confirmed removal of the active group leaves
exactly the other groups (in order) and reassigns the active id to the
first remaining group. -/
theorem claim_C4 (confirm : Bool) (groups : List URLGroup) (activeId groupId : String)
    (g0 : URLGroup) :
    (groups.length = 1 → handleRemoveGroup confirm groups activeId groupId = (groups, activeId)) ∧
    (1 < groups.length → confirm = true → activeId = groupId →
      (groups.filter fun g => g.id != groupId).head? = some g0 →
      handleRemoveGroup confirm groups activeId groupId =
        (groups.filter fun g => g.id != groupId, g0.id)) := by
  constructor
  · intro h1
    unfold handleRemoveGroup
    rw [if_pos (by omega)]
  · intro h1 hc ha hh
    subst ha
    unfold handleRemoveGroup
    rw [if_neg (by omega), if_pos hc]
    simp [hh]

/-- Claim C4 witness: removing the active first group of two, confirmed,
keeps the second group and makes it active. -/
theorem claim_C4_witness :
    handleRemoveGroup true
        [{ id := "g1", name := "A", urls := [] }, { id := "g2", name := "B", urls := [] }]
        "g1" "g1"
      = ([{ id := "g2", name := "B", urls := [] }], "g2") :=
  (claim_C4 true
      [{ id := "g1", name := "A", urls := [] }, { id := "g2", name := "B", urls := [] }]
      "g1" "g1" { id := "g2", name := "B", urls := [] }).2 (by decide) rfl rfl (by decide)

/-- Claim C5: whenever the welcome effect fires with the chat mode active,
the transcript afterwards is exactly one system-sender message whose text
contains the active group name (or the default label when no group matches
the active id). -/
theorem claim_C5 (mode : Mode) (groups : List URLGroup) (activeId : String)
    (fileContext : Option FileContext) (now : Nat) (messages : List ChatMessage)
    (g0 : URLGroup) :
    (mode = Mode.chat → groups.find? (fun g => g.id = activeId) = some g0 → g0.name ≠ "" →
      ∃ post, welcomeEffect mode groups activeId fileContext now messages =
        [{ id := "system-welcome-" ++ activeId ++ "-" ++ toString now,
           text := "Welcome to Chat Mode! You\x27re viewing the \"" ++ (g0.name ++ post),
           sender := MessageSender.system, timestamp := now, loading := false,
           urlContext := none }]) ∧
    (mode = Mode.chat → groups.find? (fun g => g.id = activeId) = none →
      ∃ post, welcomeEffect mode groups activeId fileContext now messages =
        [{ id := "system-welcome-" ++ activeId ++ "-" ++ toString now,
           text := "Welcome to Chat Mode! You\x27re viewing the \"" ++ ("Untitled" ++ post),
           sender := MessageSender.system, timestamp := now, loading := false,
           urlContext := none }]) := by
  constructor
  · intro hm hf hn
    subst hm
    refine ⟨"\" knowledge base." ++
      (if (!g0.urls.isEmpty) || fileContext.isSome then " Ask me anything, or try a suggestion."
       else " Add documentation URLs or a file to start asking questions."), ?_⟩
    unfold welcomeEffect welcomeText welcomeDisplayName
    rw [if_pos rfl]
    simp only [hf, if_neg hn]
  · intro hm hf
    subst hm
    refine ⟨"\" knowledge base." ++
      (if fileContext.isSome then " Ask me anything, or try a suggestion."
       else " Add documentation URLs or a file to start asking questions."), ?_⟩
    unfold welcomeEffect welcomeText welcomeDisplayName
    rw [if_pos rfl]
    simp only [hf, Bool.false_or]

/-- Claim C5 witness: switching to an existing group named Docs yields the
single system welcome message carrying that name. -/
theorem claim_C5_witness :
    ∃ post, welcomeEffect Mode.chat [{ id := "g1", name := "Docs", urls := [] }] "g1" none 7 [] =
      [{ id := "system-welcome-" ++ "g1" ++ "-" ++ toString 7,
         text := "Welcome to Chat Mode! You\x27re viewing the \"" ++ ("Docs" ++ post),
         sender := MessageSender.system, timestamp := 7, loading := false,
         urlContext := none }] :=
  (claim_C5 Mode.chat [{ id := "g1", name := "Docs", urls := [] }] "g1" none 7 []
      { id := "g1", name := "Docs", urls := [] }).1 rfl rfl (by decide)

/-- Claim C6: with an empty URL list and no local-context text the
initial-suggestions operation makes no remote call and returns the fixed
fallback payload, whose parsed suggestions array holds exactly the one
canned string. -/
theorem claim_C6 (remote : String → Except String String) (urls : List String)
    (fileContent : Option String)
    (h1 : urls = []) (h2 : fileContent = none ∨ fileContent = some "") :
    getInitialSuggestions remote urls fileContent =
      (Except.ok { text := stringifySuggestionsPayload [cannedSuggestion],
                   urlContextMetadata := none }, false) ∧
    jsonParse (stringifySuggestionsPayload [cannedSuggestion]) =
      some (Json.jobj [("suggestions", Json.jarr [Json.jstr cannedSuggestion])]) := by
  subst h1
  refine ⟨?_, rfl⟩
  rcases h2 with h | h <;> subst h <;> rfl

/-- Claim C6 witness: the short-circuit at the empty context, with a remote
stub that would fail if it were ever consulted. -/
theorem claim_C6_witness :
    getInitialSuggestions (fun _ => Except.error "remote must not be called") [] none =
      (Except.ok { text := stringifySuggestionsPayload [cannedSuggestion],
                   urlContextMetadata := none }, false) :=
  (claim_C6 (fun _ => Except.error "remote must not be called") [] none rfl (Or.inl rfl)).1

/-- Claim C7: a response without any image part makes image editing fail
with the (wrapped) no-image message, and no result object is produced. -/
theorem claim_C7 (parts : List RespPart) (h : ∀ p ∈ parts, p.inlineData = none) :
    editImage parts = Except.error ("Image editing failed: " ++ noImageMsg) ∧
    containsSub ("Image editing failed: " ++ noImageMsg) "did not return an image" = true ∧
    ∀ r : EditResult, editImage parts ≠ Except.ok r := by
  have himg := scanParts_fst_of_no_inline parts "" h "" "image/png"
  have herr : editImage parts = Except.error ("Image editing failed: " ++ noImageMsg) := by
    unfold editImage
    simp only [himg, if_true]
  refine ⟨herr, by decide, fun r hr => ?_⟩
  rw [herr] at hr
  simp at hr

/-- Claim C7 witness: a response consisting of a single text part. -/
theorem claim_C7_witness :
    editImage [{ inlineData := none, text := some "refused" }] =
      Except.error ("Image editing failed: " ++ noImageMsg) :=
  (claim_C7 [{ inlineData := none, text := some "refused" }] (by simp)).1

/-- Claim C8: every contextual chat completion request carries exactly one
tool, the web-search tool when the toggle is on and the URL-context tool
otherwise, never both. -/
theorem claim_C8 (prompt : String) (urls : List String) (fileContext : Option FileContext)
    (useWebSearch useThinking : Bool) (customPrompt : String) :
    (buildChatRequest prompt urls fileContext useWebSearch useThinking customPrompt).tools.length = 1 ∧
    (useWebSearch = true →
      (buildChatRequest prompt urls fileContext useWebSearch useThinking customPrompt).tools =
        [Tool.googleSearch]) ∧
    (useWebSearch = false →
      (buildChatRequest prompt urls fileContext useWebSearch useThinking customPrompt).tools =
        [Tool.urlContext]) ∧
    ¬ (Tool.googleSearch ∈
         (buildChatRequest prompt urls fileContext useWebSearch useThinking customPrompt).tools ∧
       Tool.urlContext ∈
         (buildChatRequest prompt urls fileContext useWebSearch useThinking customPrompt).tools) := by
  cases useWebSearch <;> simp [buildChatRequest]

/-- Claim C8 witness: with the toggle on, the tool list is exactly the
web-search tool. -/
theorem claim_C8_witness :
    (buildChatRequest "q" [] none true true "").tools = [Tool.googleSearch] :=
  (claim_C8 "q" [] none true true "").2.1 rfl

/-- Claim C9: while a chat request is in flight or a suggestions fetch is
outstanding, send-message is a complete no-op: the state (transcript
included) is returned unchanged and no remote call is issued. -/
theorem claim_C9 (st : ChatState) (query : String) (now : Nat)
    (remote : Except String GeminiResponse)
    (h : st.isLoading = true ∨ st.isFetchingSuggestions = true) :
    handleSendMessage st query now remote = (st, false) := by
  unfold handleSendMessage
  rw [if_pos (Or.inr h)]

/-- Claim C9 witness: a send attempted while the loading flag is set leaves
the state untouched and performs no call. -/
theorem claim_C9_witness :
    handleSendMessage
        { messages := [], isLoading := true, isFetchingSuggestions := false, suggestions := [] }
        "hello" 0 (Except.error "boom")
      = ({ messages := [], isLoading := true, isFetchingSuggestions := false,
           suggestions := [] }, false) :=
  claim_C9 { messages := [], isLoading := true, isFetchingSuggestions := false, suggestions := [] }
    "hello" 0 (Except.error "boom") (Or.inl rfl)

/-- Claim C10: blank or whitespace-only pasted text clears any existing
local context; non-blank text replaces it with a context named
Pasted Content holding the trimmed input. -/
theorem claim_C10 (content : String) (prev : Option FileContext) :
    (jsTrim content = "" → handleSetTextContext content prev = none) ∧
    (jsTrim content ≠ "" →
      handleSetTextContext content prev =
        some { name := "Pasted Content", content := jsTrim content }) := by
  constructor
  · intro h
    unfold handleSetTextContext
    rw [if_pos h]
  · intro h
    unfold handleSetTextContext
    rw [if_neg h]

/-- Claim C10 witness: whitespace-only input clears an existing context and
non-blank input installs the trimmed pasted content. -/
theorem claim_C10_witness :
    handleSetTextContext "   " (some { name := "old.txt", content := "x" }) = none ∧
    handleSetTextContext "  hello world  " none =
      some { name := "Pasted Content", content := jsTrim "  hello world  " } :=
  ⟨(claim_C10 "   " (some { name := "old.txt", content := "x" })).1 (by decide),
   (claim_C10 "  hello world  " none).2 (by decide)⟩
